import Mathlib

/-!
Shallow embedding of the SupermarketReceipt kata (python sources under
src/python/) for checking its natural-language specification.

Modelling conventions:
* Python `float` values (prices, quantities, offer arguments, discount
  amounts) are embedded as exact rationals `ℚ`; the spec states exact
  arithmetic identities, which are the intent of the float code.
* Python `raise ValueError(msg)` is embedded as `Except.error msg`;
  `Optional[Discount]` as `Option Discount`.
* Python f-strings used for discount descriptions are embedded as a
  structured `Description` value recording the same constituents
  (`f"\x7bgroup_size\x7d for \x7bamount\x7d"` and `f"\x7barg\x7d% off"`).
* Python `int(x)` (truncation toward zero) is `pyInt`; Python `//` and `%`
  on integers (floor division) are `Int.fdiv` / `Int.fmod`; Python
  `round(x, 2)` (round-half-to-even) is `round2`; Python `sum` is a left
  fold from `0` (`pySum`).
* Python `dict` (insertion-ordered) keyed by products is an insertion
  ordered association list `QuantMap`; the offer registry, only ever read
  during checkout, is a lookup function `Product → Option Offer`, and the
  external catalog a function `Product → ℚ`.
-/

namespace Supermarket

/-- model_objects.ProductUnit: EACH or KILO. -/
inductive ProductUnit where
  | EACH
  | KILO
deriving DecidableEq

/-- model_objects.Product: name and unit, equality and hashing by both fields. -/
structure Product where
  name : String
  unit : ProductUnit
deriving DecidableEq

/-- model_objects.ProductQuantity: one cart entry as added. -/
structure ProductQuantity where
  product : Product
  quantity : ℚ
deriving DecidableEq

/-- model_objects.OfferType enumeration. -/
inductive OfferType where
  | THREE_FOR_TWO
  | TEN_PERCENT_DISCOUNT
  | TWO_FOR_AMOUNT
  | FIVE_FOR_AMOUNT
deriving DecidableEq

/-- model_objects.Offer: an offer type together with its numeric argument. -/
structure Offer where
  offer_type : OfferType
  argument : ℚ
deriving DecidableEq

/-- Structured embedding of the two Python f-strings used as discount
descriptions in discount_calculator.py: `groupFor g a` stands for
`f"\x7bg\x7d for \x7ba\x7d"` and `percentOff x` stands for `f"\x7bx\x7d% off"`. -/
inductive Description where
  | groupFor (group_size : ℤ) (amount : ℚ)
  | percentOff (argument : ℚ)
deriving DecidableEq

/-- model_objects.Discount: product, description, and (signed) amount. -/
structure Discount where
  product : Product
  description : Description
  discount_amount : ℚ
deriving DecidableEq

/-- Python `int(q)` on a float: truncation toward zero. -/
def pyInt (q : ℚ) : ℤ :=
  if 0 ≤ q then ⌊q⌋ else ⌈q⌉

/-- The state of a constructed DiscountCalculator: after `__init__` the
quantity field has been truncated to an integer (`self.quantity = int(quantity)`). -/
structure DiscountCalculator where
  product : Product
  quantity : ℤ
  unit_price : ℚ
  offer : Offer

/-- DiscountCalculator.__init__: validates `quantity <= 0 or unit_price < 0`
(raising ValueError), then stores the truncated quantity. -/
def DiscountCalculator.init (product : Product) (quantity : ℚ) (unit_price : ℚ)
    (offer : Offer) : Except String DiscountCalculator :=
  if quantity ≤ 0 ∨ unit_price < 0 then
    .error "Quantity must be positive and unit price cannot be negative."
  else
    .ok ⟨product, pyInt quantity, unit_price, offer⟩

/-- DiscountCalculator.calculate_group_discount (static): if
`quantity >= group_size`, the payable total is
`amount * (quantity // group_size) + (quantity % group_size) * unit_price`
and the discount record carries the negated saving; otherwise None. -/
def calculate_group_discount (product : Product) (quantity : ℤ) (unit_price : ℚ)
    (group_size : ℤ) (amount : ℚ) : Option Discount :=
  if group_size ≤ quantity then
    let number_of_groups : ℤ := Int.fdiv quantity group_size
    let total : ℚ := amount * (number_of_groups : ℚ) +
      ((Int.fmod quantity group_size : ℤ) : ℚ) * unit_price
    let discount_amount : ℚ := (quantity : ℚ) * unit_price - total
    some ⟨product, .groupFor group_size amount, -discount_amount⟩
  else
    none

/-- DiscountCalculator.amount_discount (static): textually the same
computation as calculate_group_discount, with an explicit `return None`. -/
def amount_discount (product : Product) (quantity : ℤ) (unit_price : ℚ)
    (group_size : ℤ) (amount : ℚ) : Option Discount :=
  if group_size ≤ quantity then
    let number_of_groups : ℤ := Int.fdiv quantity group_size
    let total : ℚ := amount * (number_of_groups : ℚ) +
      ((Int.fmod quantity group_size : ℤ) : ℚ) * unit_price
    let discount_amount : ℚ := (quantity : ℚ) * unit_price - total
    some ⟨product, .groupFor group_size amount, -discount_amount⟩
  else
    none

/-- DiscountCalculator.three_for_two_discount: group size 3, bundle price
`2 * unit_price`, via calculate_group_discount. -/
def DiscountCalculator.three_for_two_discount (c : DiscountCalculator) : Option Discount :=
  calculate_group_discount c.product c.quantity c.unit_price 3 (2 * c.unit_price)

/-- DiscountCalculator.two_for_amount_discount: group size 2, bundle price
`offer.argument`, via amount_discount. -/
def DiscountCalculator.two_for_amount_discount (c : DiscountCalculator) : Option Discount :=
  amount_discount c.product c.quantity c.unit_price 2 c.offer.argument

/-- DiscountCalculator.five_for_amount_discount: group size 5, bundle price
`offer.argument`, via amount_discount. -/
def DiscountCalculator.five_for_amount_discount (c : DiscountCalculator) : Option Discount :=
  amount_discount c.product c.quantity c.unit_price 5 c.offer.argument

/-- DiscountCalculator.ten_percent_discount: raises ValueError unless
`0 <= offer.argument <= 100`, otherwise returns a Discount of
`-quantity * unit_price * (argument / 100)` described as percent-off. -/
def DiscountCalculator.ten_percent_discount (c : DiscountCalculator) :
    Except String Discount :=
  if ¬ (0 ≤ c.offer.argument ∧ c.offer.argument ≤ 100) then
    .error "Discount percentage must be between 0 and 100."
  else
    .ok ⟨c.product, .percentOff c.offer.argument,
      -(c.quantity : ℚ) * c.unit_price * (c.offer.argument / 100)⟩

/-- DiscountCalculator.calculate_discount: dispatch on the offer type via the
discount_methods mapping (all four enum members are present in the mapping, so
the unknown-offer-type branch is unreachable for this closed enum). -/
def DiscountCalculator.calculate_discount (c : DiscountCalculator) :
    Except String (Option Discount) :=
  match c.offer.offer_type with
  | .THREE_FOR_TWO => .ok c.three_for_two_discount
  | .TWO_FOR_AMOUNT => .ok c.two_for_amount_discount
  | .FIVE_FOR_AMOUNT => .ok c.five_for_amount_discount
  | .TEN_PERCENT_DISCOUNT => (c.ten_percent_discount).map some

/-- The discount engine as invoked by ShoppingCart.handle_offers:
`DiscountCalculator(product, quantity, unit_price, offer).calculate_discount()`. -/
def computeDiscount (product : Product) (quantity : ℚ) (unit_price : ℚ)
    (offer : Offer) : Except String (Option Discount) :=
  (DiscountCalculator.init product quantity unit_price offer).bind
    DiscountCalculator.calculate_discount

/-- receipt.ReceiptItem: product, quantity, unit price, and the
caller-supplied total price. -/
structure ReceiptItem where
  product : Product
  quantity : ℚ
  price : ℚ
  total_price : ℚ
deriving DecidableEq

/-- receipt.Receipt: an ordered list of items and an ordered list of
discounts, both append-only. -/
structure Receipt where
  items : List ReceiptItem
  discounts : List Discount
deriving DecidableEq

/-- Python `sum(...)` over floats: a left fold of addition starting at 0. -/
def pySum (l : List ℚ) : ℚ :=
  l.foldl (· + ·) 0

/-- Python `round(x)` to an integer: round half to even. -/
def pyRound (q : ℚ) : ℤ :=
  if q - ⌊q⌋ < 1 / 2 then ⌊q⌋
  else if 1 / 2 < q - ⌊q⌋ then ⌊q⌋ + 1
  else if ⌊q⌋ % 2 = 0 then ⌊q⌋ else ⌊q⌋ + 1

/-- Python `round(x, 2)`: round half to even at two decimal places. -/
def round2 (q : ℚ) : ℚ :=
  (pyRound (q * 100) : ℚ) / 100

/-- Receipt.total_price: the sum of item totals plus the sum of discount
amounts, rounded to 2 decimal places; recomputed from current contents on
each call. -/
def Receipt.total_price (r : Receipt) : ℚ :=
  round2 (pySum (r.items.map ReceiptItem.total_price) +
    pySum (r.discounts.map Discount.discount_amount))

/-- Receipt.add_product: appends a ReceiptItem built from the arguments. -/
def Receipt.add_product (r : Receipt) (product : Product) (quantity : ℚ)
    (price : ℚ) (total_price : ℚ) : Receipt :=
  { r with items := r.items ++ [⟨product, quantity, price, total_price⟩] }

/-- Receipt.add_discount: appends a discount. -/
def Receipt.add_discount (r : Receipt) (d : Discount) : Receipt :=
  { r with discounts := r.discounts ++ [d] }

/-- An insertion-ordered Python dict from products to float quantities,
as an association list. -/
abbrev QuantMap : Type := List (Product × ℚ)

/-- Dict lookup: the value at the (unique) occurrence of the key, if any. -/
def QuantMap.get (m : QuantMap) (p : Product) : Option ℚ :=
  match m with
  | [] => none
  | e :: rest => if e.1 = p then some e.2 else QuantMap.get rest p

/-- Dict assignment `m[p] = v`: overwrites in place if the key is present
(keeping its position, as Python dicts do), otherwise appends. -/
def QuantMap.set (m : QuantMap) (p : Product) (v : ℚ) : QuantMap :=
  match m with
  | [] => [(p, v)]
  | e :: rest => if e.1 = p then (p, v) :: rest else e :: QuantMap.set rest p v

/-- shopping_cart.ShoppingCart: the ordered entry history `_items` and the
merged per-product quantity dict `_product_quantities`. -/
structure ShoppingCart where
  items : List ProductQuantity
  product_quantities : QuantMap

/-- ShoppingCart.__init__: both containers start empty. -/
def ShoppingCart.empty : ShoppingCart :=
  ⟨[], []⟩

/-- ShoppingCart.add_item_quantity: appends a ProductQuantity entry to the
history and adds the quantity onto `_product_quantities.get(product, 0)`. -/
def ShoppingCart.add_item_quantity (c : ShoppingCart) (product : Product)
    (quantity : ℚ) : ShoppingCart :=
  ⟨c.items ++ [⟨product, quantity⟩],
    c.product_quantities.set product
      (((c.product_quantities.get product).getD 0) + quantity)⟩

/-- ShoppingCart.add_item: add with quantity 1.0. -/
def ShoppingCart.add_item (c : ShoppingCart) (product : Product) : ShoppingCart :=
  c.add_item_quantity product 1

/-- ShoppingCart.handle_offers, restricted to the discounts it appends (the
receipt argument only ever receives `add_discount` calls, in loop order):
iterate over the merged `_product_quantities`; skip products without an
offer; otherwise run the discount engine on the merged quantity and the
catalog unit price, propagating any ValueError, and collect the discount
when one is returned (a Discount object is always truthy). -/
def handle_offers (pqs : QuantMap) (offers : Product → Option Offer)
    (catalog : Product → ℚ) : Except String (List Discount) :=
  match pqs with
  | [] => .ok []
  | (product, quantity) :: rest =>
    match offers product with
    | none => handle_offers rest offers catalog
    | some offer =>
      match computeDiscount product quantity (catalog product) offer with
      | .error e => .error e
      | .ok od =>
        match handle_offers rest offers catalog with
        | .error e => .error e
        | .ok ds =>
          match od with
          | some d => .ok (d :: ds)
          | none => .ok ds

/-- Teller._process_item / _calculate_total_price: one receipt line per cart
entry, priced from the catalog with `total_price = quantity * unit_price`. -/
def process_item (catalog : Product → ℚ) (pq : ProductQuantity) : ReceiptItem :=
  ⟨pq.product, pq.quantity, catalog pq.product, pq.quantity * catalog pq.product⟩

/-- Teller.checks_out_articles_from: build an empty receipt, add one line per
cart history entry in order (_add_cart_items_to_receipt), then apply offers
on the merged quantities (_apply_offers → ShoppingCart.handle_offers); a
ValueError raised while handling offers propagates, so no receipt is
returned in that case. -/
def checks_out_articles_from (catalog : Product → ℚ)
    (offers : Product → Option Offer) (cart : ShoppingCart) :
    Except String Receipt :=
  match handle_offers cart.product_quantities offers catalog with
  | .error e => .error e
  | .ok ds => .ok ⟨cart.items.map (process_item catalog), ds⟩

/-- The cumulative quantity of product `p` over a cart entry history. -/
def histSum (items : List ProductQuantity) (p : Product) : ℚ :=
  ((items.filter (fun pq => pq.product = p)).map ProductQuantity.quantity).sum

/-- Carts reachable from the empty cart by add_item / add_item_quantity. -/
inductive Reachable : ShoppingCart → Prop where
  | empty : Reachable ShoppingCart.empty
  | add_item_quantity (c : ShoppingCart) (p : Product) (q : ℚ) :
      Reachable c → Reachable (c.add_item_quantity p q)
  | add_item (c : ShoppingCart) (p : Product) :
      Reachable c → Reachable (c.add_item p)

/-- The cart/merged-map consistency invariant: a product is a key of the
merged quantity dict exactly when some history entry mentions it, and the
stored value is the cumulative quantity over the history. -/
def CartInv (c : ShoppingCart) : Prop :=
  ∀ p : Product,
    ((c.product_quantities.get p).isSome ↔ ∃ pq ∈ c.items, pq.product = p) ∧
    ∀ q : ℚ, c.product_quantities.get p = some q → q = histSum c.items p

/-- The group size each group-style offer type dispatches with
(three_for_two_discount, two_for_amount_discount, five_for_amount_discount);
TEN_PERCENT_DISCOUNT is not a group offer and is given the junk value 1. -/
def group_size_of : OfferType → ℤ
  | .THREE_FOR_TWO => 3
  | .TWO_FOR_AMOUNT => 2
  | .FIVE_FOR_AMOUNT => 5
  | .TEN_PERCENT_DISCOUNT => 1

/-- A sample discrete product, used for concrete instantiations. -/
def tb : Product := ⟨"toothbrush", .EACH⟩

/-- A sample by-weight product, used for concrete instantiations. -/
def ap : Product := ⟨"apples", .KILO⟩

theorem calculate_group_discount_eq (product : Product) (quantity : ℤ)
    (unit_price : ℚ) (group_size : ℤ) (amount : ℚ) :
    calculate_group_discount product quantity unit_price group_size amount =
      amount_discount product quantity unit_price group_size amount := rfl

theorem amount_discount_of_le (product : Product) (quantity : ℤ) (unit_price : ℚ)
    (group_size : ℤ) (amount : ℚ) (h : group_size ≤ quantity) :
    amount_discount product quantity unit_price group_size amount =
      some ⟨product, Description.groupFor group_size amount,
        -((quantity : ℚ) * unit_price -
          (amount * ((Int.fdiv quantity group_size : ℤ) : ℚ) +
            ((Int.fmod quantity group_size : ℤ) : ℚ) * unit_price))⟩ := by
  simp [amount_discount, h]

theorem amount_discount_of_lt (product : Product) (quantity : ℤ) (unit_price : ℚ)
    (group_size : ℤ) (amount : ℚ) (h : quantity < group_size) :
    amount_discount product quantity unit_price group_size amount = none := by
  simp [amount_discount, not_le.mpr h]

/-- C1: for quantity ≥ group_size (with the group sizes 3, 2, 5 used by
THREE_FOR_TWO, TWO_FOR_AMOUNT and FIVE_FOR_AMOUNT all positive) and
unit price ≥ 0, the group-discount computation returns a Discount whose
amount is `-(quantity*unit_price - (floor(quantity/group_size)*bundle_amount
+ (quantity mod group_size)*unit_price))`, calculate_group_discount agreeing
with amount_discount; in particular FIVE_FOR_AMOUNT arithmetic at quantity
16 gives `-(16p - (3a + p))`. -/
theorem C1_group_discount_formula :
    (∀ (product : Product) (quantity : ℤ) (unit_price : ℚ) (group_size : ℤ)
      (amount : ℚ), 0 < group_size → group_size ≤ quantity → 0 ≤ unit_price →
      amount_discount product quantity unit_price group_size amount =
        some ⟨product, Description.groupFor group_size amount,
          -((quantity : ℚ) * unit_price -
            (((quantity / group_size : ℤ) : ℚ) * amount +
              ((quantity % group_size : ℤ) : ℚ) * unit_price))⟩ ∧
      calculate_group_discount product quantity unit_price group_size amount =
        amount_discount product quantity unit_price group_size amount) ∧
    (∀ (product : Product) (p a : ℚ), 0 ≤ p →
      amount_discount product 16 p 5 a =
        some ⟨product, Description.groupFor 5 a, -(16 * p - (3 * a + p))⟩) := by
  constructor
  · intro product quantity unit_price group_size amount hg hq hu
    refine ⟨?_, rfl⟩
    rw [amount_discount_of_le _ _ _ _ _ hq, Int.fdiv_eq_ediv _ hg.le,
      Int.fmod_eq_emod _ hg.le]
    simp only [Option.some.injEq, Discount.mk.injEq, true_and]
    ring
  · intro product p a hp
    rw [amount_discount_of_le _ _ _ _ _ (by decide),
      show Int.fdiv 16 5 = 3 from by decide,
      show Int.fmod 16 5 = 1 from by decide]
    simp only [Option.some.injEq, Discount.mk.injEq, true_and]
    push_cast
    ring

/-- Closed instance of C1: THREE_FOR_TWO-style arithmetic at quantity 7,
group 3, unit price 1 and bundle 2, and the quoted FIVE_FOR_AMOUNT instance
at quantity 16, unit price 2 and argument 6. -/
theorem C1_witness :
    amount_discount tb 7 1 3 2 =
      some ⟨tb, Description.groupFor 3 2, -(7 * 1 - (2 * 2 + 1 * 1))⟩ ∧
    amount_discount tb 16 2 5 6 =
      some ⟨tb, Description.groupFor 5 6, -(16 * 2 - (3 * 6 + 2))⟩ := by
  constructor
  · refine ((C1_group_discount_formula.1 tb 7 1 3 2 (by decide) (by decide)
      (by norm_num)).1).trans ?_
    norm_num
  · refine (C1_group_discount_formula.2 tb 2 6 (by norm_num)).trans ?_
    norm_num

/-- C2: for each of the group offers THREE_FOR_TWO, TWO_FOR_AMOUNT and
FIVE_FOR_AMOUNT on a valid input (quantity > 0, unit price ≥ 0), the engine
yields no discount exactly when the quantity is below the group size, and
always yields a discount record (possibly of amount 0) once the quantity
reaches the group size. -/
theorem C2_group_offer_emission (c : DiscountCalculator)
    (hot : c.offer.offer_type ≠ OfferType.TEN_PERCENT_DISCOUNT)
    (hq : 0 < c.quantity) (hu : 0 ≤ c.unit_price) :
    (c.calculate_discount = .ok none ↔
      c.quantity < group_size_of c.offer.offer_type) ∧
    (group_size_of c.offer.offer_type ≤ c.quantity →
      ∃ d, c.calculate_discount = .ok (some d)) := by
  rcases h : c.offer.offer_type with _ | _ | _ | _
  · constructor
    · simp only [DiscountCalculator.calculate_discount, h,
        DiscountCalculator.three_for_two_discount, calculate_group_discount_eq,
        amount_discount, group_size_of, Except.ok.injEq]
      split_ifs with hle <;> simp <;> omega
    · intro hle
      rw [group_size_of] at hle
      simp only [DiscountCalculator.calculate_discount, h,
        DiscountCalculator.three_for_two_discount, calculate_group_discount_eq,
        amount_discount_of_le _ _ _ _ _ hle]
      exact ⟨_, rfl⟩
  · exact absurd h hot
  · constructor
    · simp only [DiscountCalculator.calculate_discount, h,
        DiscountCalculator.two_for_amount_discount,
        amount_discount, group_size_of, Except.ok.injEq]
      split_ifs with hle <;> simp <;> omega
    · intro hle
      rw [group_size_of] at hle
      simp only [DiscountCalculator.calculate_discount, h,
        DiscountCalculator.two_for_amount_discount,
        amount_discount_of_le _ _ _ _ _ hle]
      exact ⟨_, rfl⟩
  · constructor
    · simp only [DiscountCalculator.calculate_discount, h,
        DiscountCalculator.five_for_amount_discount,
        amount_discount, group_size_of, Except.ok.injEq]
      split_ifs with hle <;> simp <;> omega
    · intro hle
      rw [group_size_of] at hle
      simp only [DiscountCalculator.calculate_discount, h,
        DiscountCalculator.five_for_amount_discount,
        amount_discount_of_le _ _ _ _ _ hle]
      exact ⟨_, rfl⟩

/-- Closed instance of C2: a TWO_FOR_AMOUNT offer whose bundle price equals
`group_size * unit_price` (quantity 2, unit price 1, argument 2) still emits
a discount record, and its quantity is not below the group size. -/
theorem C2_witness :
    ((⟨tb, 2, 1, ⟨.TWO_FOR_AMOUNT, 2⟩⟩ : DiscountCalculator).calculate_discount =
      .ok none ↔ (2 : ℤ) < group_size_of OfferType.TWO_FOR_AMOUNT) ∧
    (group_size_of OfferType.TWO_FOR_AMOUNT ≤ (2 : ℤ) →
      ∃ d, (⟨tb, 2, 1, ⟨.TWO_FOR_AMOUNT, 2⟩⟩ : DiscountCalculator).calculate_discount =
        .ok (some d)) :=
  C2_group_offer_emission ⟨tb, 2, 1, ⟨.TWO_FOR_AMOUNT, 2⟩⟩
    (by decide) (by decide) (by norm_num)

/-- C3: on a TEN_PERCENT_DISCOUNT offer with validated quantity and unit
price, the engine raises exactly when the argument lies outside [0, 100],
and otherwise returns a percent-off discount of
`-(quantity * unit_price * argument/100)`. -/
theorem C3_ten_percent (c : DiscountCalculator)
    (hot : c.offer.offer_type = OfferType.TEN_PERCENT_DISCOUNT)
    (hq : 0 < c.quantity) (hu : 0 ≤ c.unit_price) :
    ((∃ e, c.calculate_discount = .error e) ↔
      ¬ (0 ≤ c.offer.argument ∧ c.offer.argument ≤ 100)) ∧
    (0 ≤ c.offer.argument ∧ c.offer.argument ≤ 100 →
      c.calculate_discount = .ok (some ⟨c.product,
        Description.percentOff c.offer.argument,
        -(c.quantity : ℚ) * c.unit_price * (c.offer.argument / 100)⟩)) := by
  simp only [DiscountCalculator.calculate_discount, hot,
    DiscountCalculator.ten_percent_discount]
  by_cases harg : 0 ≤ c.offer.argument ∧ c.offer.argument ≤ 100
  · rw [if_neg (not_not.mpr harg)]
    constructor
    · refine iff_of_false ?_ (not_not.mpr harg)
      rintro ⟨e, he⟩
      simp only [Except.map, reduceCtorEq] at he
    · intro _
      rfl
  · rw [if_pos harg]
    constructor
    · exact iff_of_true ⟨_, rfl⟩ harg
    · intro hc
      exact absurd hc harg

/-- Closed instances of C3: argument 120 is rejected, argument 10 on
quantity 2 at unit price 1 yields −0.2. -/
theorem C3_witness :
    ((∃ e, (⟨tb, 2, 1, ⟨.TEN_PERCENT_DISCOUNT, 120⟩⟩ :
        DiscountCalculator).calculate_discount = .error e) ↔
      ¬ (0 ≤ (120 : ℚ) ∧ (120 : ℚ) ≤ 100)) ∧
    (0 ≤ (10 : ℚ) ∧ (10 : ℚ) ≤ 100 →
      (⟨tb, 2, 1, ⟨.TEN_PERCENT_DISCOUNT, 10⟩⟩ :
        DiscountCalculator).calculate_discount =
        .ok (some ⟨tb, Description.percentOff 10, -(2 : ℚ) * 1 * (10 / 100)⟩)) :=
  ⟨(C3_ten_percent ⟨tb, 2, 1, ⟨.TEN_PERCENT_DISCOUNT, 120⟩⟩ rfl (by decide)
      (by norm_num)).1,
    (C3_ten_percent ⟨tb, 2, 1, ⟨.TEN_PERCENT_DISCOUNT, 10⟩⟩ rfl (by decide)
      (by norm_num)).2⟩

theorem QuantMap.mem_of_get_eq_some :
    ∀ (m : QuantMap) (p : Product) (q : ℚ), m.get p = some q → (p, q) ∈ m := by
  intro m
  induction m with
  | nil =>
    intro p q h
    simp [QuantMap.get] at h
  | cons e rest ih =>
    intro p q h
    rw [QuantMap.get] at h
    split_ifs at h with he
    · rw [Option.some.injEq] at h
      exact List.mem_cons.mpr (Or.inl (by cases e; simp_all))
    · exact List.mem_cons.mpr (Or.inr (ih p q h))

theorem handle_offers_error_of_entry (offers : Product → Option Offer)
    (catalog : Product → ℚ) :
    ∀ (pqs : QuantMap) (p : Product) (q : ℚ) (o : Offer),
    (p, q) ∈ pqs → offers p = some o →
    (∃ e, computeDiscount p q (catalog p) o = .error e) →
    ∃ e, handle_offers pqs offers catalog = .error e := by
  intro pqs
  induction pqs with
  | nil =>
    intro p q o hmem _ _
    simp at hmem
  | cons hd rest ih =>
    intro p q o hmem ho herr
    obtain ⟨p₁, q₁⟩ := hd
    rcases List.mem_cons.mp hmem with heq | hmem'
    · cases heq
      obtain ⟨e, he⟩ := herr
      refine ⟨e, ?_⟩
      simp only [handle_offers, ho, he]
    · cases hoff : offers p₁ with
      | none =>
        obtain ⟨e, he⟩ := ih p q o hmem' ho herr
        refine ⟨e, ?_⟩
        simp only [handle_offers, hoff, he]
      | some o₁ =>
        cases hcd : computeDiscount p₁ q₁ (catalog p₁) o₁ with
        | error e =>
          refine ⟨e, ?_⟩
          simp only [handle_offers, hoff, hcd]
        | ok od =>
          obtain ⟨e, he⟩ := ih p q o hmem' ho herr
          refine ⟨e, ?_⟩
          simp only [handle_offers, hoff, hcd, he]

/-- C4: with any offer type, the engine raises the invalid-argument error on
`quantity ≤ 0` or `unit_price < 0` in `__init__`, before offer dispatch (the
error is the same for every offer type); during checkout this validation is
applied to the per-product merged quantity, so a bad merged entry of an
offered product fails the checkout, and whether checkout fails depends only
on the merged per-product map, not on the individual cart entries. -/
theorem C4_input_validation :
    (∀ (product : Product) (quantity unit_price : ℚ) (offer : Offer),
      quantity ≤ 0 ∨ unit_price < 0 →
      computeDiscount product quantity unit_price offer =
        .error "Quantity must be positive and unit price cannot be negative.") ∧
    (∀ (cart : ShoppingCart) (offers : Product → Option Offer)
      (catalog : Product → ℚ) (p : Product) (o : Offer) (q : ℚ),
      offers p = some o → cart.product_quantities.get p = some q →
      q ≤ 0 ∨ catalog p < 0 →
      ∃ e, checks_out_articles_from catalog offers cart = .error e) ∧
    (∀ (catalog : Product → ℚ) (offers : Product → Option Offer)
      (c₁ c₂ : ShoppingCart), c₁.product_quantities = c₂.product_quantities →
      ((∃ e, checks_out_articles_from catalog offers c₁ = .error e) ↔
        (∃ e, checks_out_articles_from catalog offers c₂ = .error e))) := by
  have part1 : ∀ (product : Product) (quantity unit_price : ℚ) (offer : Offer),
      quantity ≤ 0 ∨ unit_price < 0 →
      computeDiscount product quantity unit_price offer =
        .error "Quantity must be positive and unit price cannot be negative." := by
    intro product quantity unit_price offer h
    rw [computeDiscount, DiscountCalculator.init, if_pos h]
    rfl
  refine ⟨part1, ?_, ?_⟩
  · intro cart offers catalog p o q ho hget hbad
    obtain ⟨e, he⟩ := handle_offers_error_of_entry offers catalog
      cart.product_quantities p q o (QuantMap.mem_of_get_eq_some _ _ _ hget) ho
      ⟨_, part1 p q (catalog p) o hbad⟩
    exact ⟨e, by rw [checks_out_articles_from, he]⟩
  · intro catalog offers c₁ c₂ h
    rw [checks_out_articles_from, checks_out_articles_from, h]
    cases hh : handle_offers c₂.product_quantities offers catalog <;> simp [hh]

/-- Closed instances of C4: negative quantity is rejected before dispatch,
and a cart whose merged toothbrush quantity is −2 fails checkout when the
toothbrush carries an offer. -/
theorem C4_witness :
    computeDiscount tb (-1) 1 ⟨.THREE_FOR_TWO, 0⟩ =
      .error "Quantity must be positive and unit price cannot be negative." ∧
    ∃ e, checks_out_articles_from (fun _ => 1)
      (fun p => if p = tb then some ⟨.TEN_PERCENT_DISCOUNT, 10⟩ else none)
      (ShoppingCart.empty.add_item_quantity tb (-2)) = .error e :=
  ⟨C4_input_validation.1 tb (-1) 1 ⟨.THREE_FOR_TWO, 0⟩ (Or.inl (by norm_num)),
    C4_input_validation.2.1 (ShoppingCart.empty.add_item_quantity tb (-2))
      (fun p => if p = tb then some ⟨.TEN_PERCENT_DISCOUNT, 10⟩ else none)
      (fun _ => 1) tb ⟨.TEN_PERCENT_DISCOUNT, 10⟩ (0 + (-2))
      (by simp)
      (by simp [ShoppingCart.add_item_quantity, ShoppingCart.empty,
        QuantMap.set, QuantMap.get])
      (Or.inl (by norm_num))⟩

/-- C5 counterexample: a TWO_FOR_AMOUNT offer whose bundle price (5) exceeds
`group_size * unit_price` (2·1) makes the engine emit a Discount with a
POSITIVE discount_amount (+3), refuting the claim that every produced
discount_amount is ≤ 0. -/
theorem C5_counterexample :
    computeDiscount tb 2 1 ⟨.TWO_FOR_AMOUNT, 5⟩ =
      .ok (some ⟨tb, Description.groupFor 2 5, 3⟩) ∧ ¬ ((3 : ℚ) ≤ 0) := by
  constructor
  · simp only [computeDiscount, DiscountCalculator.init]
    norm_num [Except.bind, DiscountCalculator.calculate_discount,
      DiscountCalculator.two_for_amount_discount, amount_discount, pyInt,
      show Int.fdiv 2 2 = 1 from by decide, show Int.fmod 2 2 = 0 from by decide]
  · norm_num

theorem amount_discount_nonpos (product : Product) (quantity : ℤ)
    (unit_price : ℚ) (group_size : ℤ) (amount : ℚ) (d : Discount)
    (hg : 0 < group_size) (hu : 0 ≤ unit_price)
    (ha : amount ≤ (group_size : ℚ) * unit_price)
    (h : amount_discount product quantity unit_price group_size amount = some d) :
    d.discount_amount ≤ 0 := by
  by_cases hle : group_size ≤ quantity
  · rw [amount_discount_of_le _ _ _ _ _ hle, Option.some.injEq] at h
    subst h
    simp only
    rw [Int.fdiv_eq_ediv _ hg.le, Int.fmod_eq_emod _ hg.le]
    have hq0 : (0 : ℤ) ≤ quantity := le_trans hg.le hle
    have hD : (0 : ℤ) ≤ quantity / group_size := Int.ediv_nonneg hq0 hg.le
    have hkey : ((group_size * (quantity / group_size) + quantity % group_size :
        ℤ) : ℚ) = (quantity : ℚ) := by
      exact_mod_cast congrArg (fun z : ℤ => (z : ℚ))
        (Int.ediv_add_emod quantity group_size)
    push_cast at hkey
    have hD' : (0 : ℚ) ≤ ((quantity / group_size : ℤ) : ℚ) := by exact_mod_cast hD
    rw [← hkey]
    nlinarith [mul_nonneg hD' (sub_nonneg.mpr ha)]
  · rw [amount_discount_of_lt _ _ _ _ _ (not_le.mp hle)] at h
    exact absurd h (by simp)

theorem calculate_discount_nonpos (c : DiscountCalculator) (d : Discount)
    (hq : 0 ≤ c.quantity) (hu : 0 ≤ c.unit_price)
    (h2 : c.offer.offer_type = OfferType.TWO_FOR_AMOUNT →
      c.offer.argument ≤ 2 * c.unit_price)
    (h5 : c.offer.offer_type = OfferType.FIVE_FOR_AMOUNT →
      c.offer.argument ≤ 5 * c.unit_price)
    (h : c.calculate_discount = .ok (some d)) : d.discount_amount ≤ 0 := by
  rcases hot : c.offer.offer_type with _ | _ | _ | _ <;>
    rw [DiscountCalculator.calculate_discount, hot] at h
  · rw [Except.ok.injEq, DiscountCalculator.three_for_two_discount,
      calculate_group_discount_eq] at h
    refine amount_discount_nonpos _ _ _ _ _ _ (by norm_num) hu ?_ h
    push_cast
    linarith
  · rw [DiscountCalculator.ten_percent_discount] at h
    split_ifs at h with harg
    · simp only [Except.map, Except.ok.injEq, Option.some.injEq] at h
      subst h
      simp only
      have hqq : (0 : ℚ) ≤ (c.quantity : ℚ) := by exact_mod_cast hq
      have hnn : 0 ≤ (c.quantity : ℚ) * c.unit_price * (c.offer.argument / 100) :=
        mul_nonneg (mul_nonneg hqq hu) (by linarith [harg.1])
      linarith
    · exact absurd h (by simp [Except.map])
  · rw [Except.ok.injEq, DiscountCalculator.two_for_amount_discount] at h
    refine amount_discount_nonpos _ _ _ _ _ _ (by norm_num) hu ?_ h
    push_cast
    linarith [h2 hot]
  · rw [Except.ok.injEq, DiscountCalculator.five_for_amount_discount] at h
    refine amount_discount_nonpos _ _ _ _ _ _ (by norm_num) hu ?_ h
    push_cast
    linarith [h5 hot]

/-- C5 amended: every Discount the engine produces has discount_amount ≤ 0,
PROVIDED the *_FOR_AMOUNT bundle price does not exceed
`group_size * unit_price`; without that proviso the invariant fails (see the
counterexample). THREE_FOR_TWO and TEN_PERCENT_DISCOUNT need no proviso. -/
theorem C5_amended_nonpositive (product : Product) (quantity unit_price : ℚ)
    (offer : Offer) (d : Discount) (hu : 0 ≤ unit_price)
    (h2 : offer.offer_type = OfferType.TWO_FOR_AMOUNT →
      offer.argument ≤ 2 * unit_price)
    (h5 : offer.offer_type = OfferType.FIVE_FOR_AMOUNT →
      offer.argument ≤ 5 * unit_price)
    (h : computeDiscount product quantity unit_price offer = .ok (some d)) :
    d.discount_amount ≤ 0 := by
  rw [computeDiscount, DiscountCalculator.init] at h
  split_ifs at h with hval
  · exact absurd h (by simp [Except.bind])
  · push_neg at hval
    simp only [Except.bind] at h
    have hq0 : (0 : ℤ) ≤ pyInt quantity := by
      rw [pyInt, if_pos hval.1.le]
      exact Int.floor_nonneg.mpr hval.1.le
    exact calculate_discount_nonpos ⟨product, pyInt quantity, unit_price, offer⟩
      d hq0 hu h2 h5 h

/-- Closed instance of the amended C5: a TWO_FOR_AMOUNT offer at bundle
price 1.5 ≤ 2·1 on merged quantity 6 yields amount −1.5 ≤ 0. -/
theorem C5_amended_witness :
    (⟨tb, Description.groupFor 2 (3 / 2), -(3 / 2)⟩ : Discount).discount_amount
      ≤ 0 :=
  C5_amended_nonpositive tb 6 1 ⟨.TWO_FOR_AMOUNT, 3 / 2⟩
    ⟨tb, Description.groupFor 2 (3 / 2), -(3 / 2)⟩ (by norm_num)
    (fun _ => by norm_num) (fun _ => by norm_num)
    (by simp only [computeDiscount, DiscountCalculator.init]
        norm_num [Except.bind, DiscountCalculator.calculate_discount,
          DiscountCalculator.two_for_amount_discount, amount_discount, pyInt,
          show Int.fdiv 6 2 = 3 from by decide,
          show Int.fmod 6 2 = 0 from by decide])

theorem pySum_eq_sum (l : List ℚ) : pySum l = l.sum := by
  rw [pySum, List.sum_eq_foldl]

/-- C6: Receipt.total_price is the 2-decimal rounding of the sum of item
totals plus the sum of discount amounts (recomputed from the receipt value
each call, hence trivially identical across repeated calls on an unchanged
receipt), and the empty receipt totals 0. -/
theorem C6_receipt_total (r : Receipt) :
    r.total_price = round2 ((r.items.map ReceiptItem.total_price).sum +
      (r.discounts.map Discount.discount_amount).sum) ∧
    Receipt.total_price ⟨[], []⟩ = 0 := by
  constructor
  · rw [Receipt.total_price, pySum_eq_sum, pySum_eq_sum]
  · rw [Receipt.total_price]
    norm_num [pySum, round2, pyRound]

theorem pyInt_intCast (n : ℤ) : pyInt ((n : ℤ) : ℚ) = n := by
  rw [pyInt]
  split_ifs with h
  · exact Int.floor_intCast n
  · exact Int.ceil_intCast n

/-- C9: the engine truncates the quantity toward zero to an integer before
any discount arithmetic: a successful `__init__` stores `int(quantity)`, and
whenever that truncation is still positive the whole engine run coincides
with the run on the truncated quantity (so 2.5 kilos is discounted as 2 for
every offer type, including TEN_PERCENT_DISCOUNT). -/
theorem C9_truncation :
    (∀ (product : Product) (quantity unit_price : ℚ) (offer : Offer)
      (c : DiscountCalculator),
      DiscountCalculator.init product quantity unit_price offer = .ok c →
      c.quantity = pyInt quantity) ∧
    (∀ (product : Product) (quantity unit_price : ℚ) (offer : Offer),
      0 < quantity → 0 ≤ unit_price → 1 ≤ pyInt quantity →
      computeDiscount product quantity unit_price offer =
        computeDiscount product ((pyInt quantity : ℤ) : ℚ) unit_price offer) := by
  constructor
  · intro product quantity unit_price offer c h
    rw [DiscountCalculator.init] at h
    split_ifs at h with hval
    rw [Except.ok.injEq] at h
    rw [← h]
  · intro product quantity unit_price offer hq hu hp
    have h1 : ¬ (quantity ≤ 0 ∨ unit_price < 0) := by
      push_neg
      exact ⟨hq, hu⟩
    have h2 : ¬ (((pyInt quantity : ℤ) : ℚ) ≤ 0 ∨ unit_price < 0) := by
      push_neg
      refine ⟨?_, hu⟩
      exact_mod_cast lt_of_lt_of_le Int.zero_lt_one hp
    rw [computeDiscount, computeDiscount, DiscountCalculator.init,
      DiscountCalculator.init, if_neg h1, if_neg h2, pyInt_intCast]

/-- Closed instance of C9: quantity 2.5 is stored as 2, and the whole
TEN_PERCENT_DISCOUNT run on 2.5 equals the run on 2. -/
theorem C9_witness :
    (⟨tb, 2, 10, ⟨.TEN_PERCENT_DISCOUNT, 10⟩⟩ : DiscountCalculator).quantity =
      pyInt (5 / 2) ∧
    computeDiscount tb (5 / 2) 10 ⟨.TEN_PERCENT_DISCOUNT, 10⟩ =
      computeDiscount tb ((pyInt (5 / 2) : ℤ) : ℚ) 10
        ⟨.TEN_PERCENT_DISCOUNT, 10⟩ :=
  ⟨C9_truncation.1 tb (5 / 2) 10 ⟨.TEN_PERCENT_DISCOUNT, 10⟩
      ⟨tb, 2, 10, ⟨.TEN_PERCENT_DISCOUNT, 10⟩⟩
      (by rw [DiscountCalculator.init, if_neg (by norm_num)]
          norm_num [pyInt]),
    C9_truncation.2 tb (5 / 2) 10 ⟨.TEN_PERCENT_DISCOUNT, 10⟩ (by norm_num)
      (by norm_num) (by norm_num [pyInt])⟩

theorem QuantMap.get_set_self (m : QuantMap) (p : Product) (v : ℚ) :
    (m.set p v).get p = some v := by
  induction m with
  | nil => simp [QuantMap.set, QuantMap.get]
  | cons e rest ih =>
    rw [QuantMap.set]
    split_ifs with he
    · rw [QuantMap.get, if_pos rfl]
    · rw [QuantMap.get, if_neg he, ih]

theorem QuantMap.get_set_ne (m : QuantMap) (p p' : Product) (v : ℚ)
    (h : p ≠ p') : (m.set p v).get p' = m.get p' := by
  induction m with
  | nil => simp [QuantMap.set, QuantMap.get, h]
  | cons e rest ih =>
    rw [QuantMap.set]
    split_ifs with he
    · rw [QuantMap.get, QuantMap.get, if_neg h, if_neg (by rw [he]; exact h)]
    · rw [QuantMap.get, QuantMap.get]
      split_ifs with he2
      · rfl
      · exact ih

theorem histSum_append (items : List ProductQuantity) (p₀ p : Product) (q₀ : ℚ) :
    histSum (items ++ [⟨p₀, q₀⟩]) p =
      histSum items p + (if p₀ = p then q₀ else 0) := by
  rw [histSum, histSum, List.filter_append, List.map_append, List.sum_append]
  congr 1
  by_cases h : p₀ = p
  · simp [List.filter, h]
  · simp [List.filter, h]

theorem histSum_eq_zero (items : List ProductQuantity) (p : Product)
    (h : ∀ pq ∈ items, ¬ pq.product = p) : histSum items p = 0 := by
  rw [histSum]
  have hnil : items.filter (fun pq => pq.product = p) = [] := by
    rw [List.filter_eq_nil_iff]
    intro a ha
    simpa using h a ha
  rw [hnil]
  rfl

theorem cartInv_empty : CartInv ShoppingCart.empty := by
  intro p
  constructor
  · simp [ShoppingCart.empty, QuantMap.get]
  · intro q hq
    simp [ShoppingCart.empty, QuantMap.get] at hq

theorem cartInv_add_item_quantity (c : ShoppingCart) (p₀ : Product) (q₀ : ℚ)
    (h : CartInv c) : CartInv (c.add_item_quantity p₀ q₀) := by
  intro p
  by_cases hp : p₀ = p
  · subst hp
    constructor
    · rw [ShoppingCart.add_item_quantity]
      simp only [QuantMap.get_set_self, Option.isSome_some, true_iff]
      exact ⟨⟨p₀, q₀⟩, List.mem_append_right _ (List.mem_singleton.mpr rfl), rfl⟩
    · intro q hq
      rw [ShoppingCart.add_item_quantity] at hq ⊢
      simp only [QuantMap.get_set_self, Option.some.injEq] at hq
      rw [histSum_append, if_pos rfl, ← hq]
      cases hold : c.product_quantities.get p₀ with
      | some qold =>
        simp only [Option.getD_some]
        rw [(h p₀).2 qold hold]
      | none =>
        simp only [Option.getD_none]
        have hno : ∀ pq ∈ c.items, ¬ pq.product = p₀ := by
          intro pq hmem hcontra
          have : (c.product_quantities.get p₀).isSome :=
            (h p₀).1.mpr ⟨pq, hmem, hcontra⟩
          rw [hold] at this
          exact absurd this (by simp)
        rw [histSum_eq_zero _ _ hno]
  · constructor
    · rw [ShoppingCart.add_item_quantity]
      simp only [QuantMap.get_set_ne _ _ _ _ hp]
      rw [(h p).1]
      constructor
      · rintro ⟨pq, hmem, hpq⟩
        exact ⟨pq, List.mem_append_left _ hmem, hpq⟩
      · rintro ⟨pq, hmem, hpq⟩
        rcases List.mem_append.mp hmem with hmem' | hmem'
        · exact ⟨pq, hmem', hpq⟩
        · rw [List.mem_singleton.mp hmem'] at hpq
          exact absurd hpq hp
    · intro q hq
      rw [ShoppingCart.add_item_quantity] at hq ⊢
      rw [QuantMap.get_set_ne _ _ _ _ hp] at hq
      rw [histSum_append, if_neg hp, add_zero]
      exact (h p).2 q hq

theorem cartInv_add_item (c : ShoppingCart) (p₀ : Product) (h : CartInv c) :
    CartInv (c.add_item p₀) :=
  cartInv_add_item_quantity c p₀ 1 h

theorem reachable_cartInv {c : ShoppingCart} (h : Reachable c) : CartInv c := by
  induction h with
  | empty => exact cartInv_empty
  | add_item_quantity c p q _ ih => exact cartInv_add_item_quantity c p q ih
  | add_item c p _ ih => exact cartInv_add_item c p ih

/-- C10: for every cart reachable by add_item / add_item_quantity calls, the
merged quantity map holds a product exactly when some history entry mentions
it, and its value is the sum of that product's history quantities; moreover
both addition operations preserve this invariant from any state satisfying
it. -/
theorem C10_merged_quantities_invariant :
    (∀ c : ShoppingCart, Reachable c → CartInv c) ∧
    (∀ (c : ShoppingCart) (p : Product) (q : ℚ),
      CartInv c → CartInv (c.add_item_quantity p q)) ∧
    (∀ (c : ShoppingCart) (p : Product), CartInv c → CartInv (c.add_item p)) :=
  ⟨fun _ h => reachable_cartInv h,
    fun c p q h => cartInv_add_item_quantity c p q h,
    fun c p h => cartInv_add_item c p h⟩

/-- Closed instance of C10: the invariant holds for the concrete cart built
by adding 2 toothbrushes and then 1 more. -/
theorem C10_witness :
    CartInv ((ShoppingCart.empty.add_item_quantity tb 2).add_item tb) :=
  C10_merged_quantities_invariant.1 _
    (Reachable.add_item _ tb (Reachable.add_item_quantity _ tb 2 Reachable.empty))

/-- C8 counterexample: a cart holding one toothbrush (with an invalid
TEN_PERCENT_DISCOUNT of 200%) and three apple entries (with a valid
THREE_FOR_TWO offer that would produce a discount) makes the whole checkout
fail with the percentage error: no receipt is returned at all, refuting the
claim that the error aborts only that product's discount computation while
the rest of the checkout proceeds. -/
theorem C8_counterexample :
    checks_out_articles_from (fun _ => 1)
      (fun p => if p = tb then some ⟨.TEN_PERCENT_DISCOUNT, 200⟩
        else if p = ap then some ⟨.THREE_FOR_TWO, 0⟩ else none)
      (((ShoppingCart.empty.add_item tb).add_item ap).add_item ap) =
      .error "Discount percentage must be between 0 and 100." := by
  norm_num [checks_out_articles_from, handle_offers, computeDiscount,
    DiscountCalculator.init, DiscountCalculator.calculate_discount,
    DiscountCalculator.ten_percent_discount, Except.bind, Except.map,
    ShoppingCart.add_item, ShoppingCart.add_item_quantity, ShoppingCart.empty,
    QuantMap.set, QuantMap.get, pyInt, tb, ap]

/-- C8 amended: an invalid-input error raised while computing the discount
of any offered product in the merged map aborts the ENTIRE checkout — the
error propagates out of handle_offers and checks_out_articles_from returns
it instead of a receipt (no per-product containment). -/
theorem C8_amended_error_aborts_checkout (catalog : Product → ℚ)
    (offers : Product → Option Offer) (cart : ShoppingCart) (p : Product)
    (q : ℚ) (o : Offer) (hmem : (p, q) ∈ cart.product_quantities)
    (ho : offers p = some o)
    (herr : ∃ e, computeDiscount p q (catalog p) o = .error e) :
    ∃ e, checks_out_articles_from catalog offers cart = .error e := by
  obtain ⟨e, he⟩ := handle_offers_error_of_entry offers catalog
    cart.product_quantities p q o hmem ho herr
  exact ⟨e, by rw [checks_out_articles_from, he]⟩

/-- Closed instance of the amended C8: the invalid 200% offer on the only
cart product makes the whole checkout return an error. -/
theorem C8_amended_witness :
    ∃ e, checks_out_articles_from (fun _ => 1)
      (fun p => if p = tb then some ⟨.TEN_PERCENT_DISCOUNT, 200⟩ else none)
      (ShoppingCart.empty.add_item_quantity tb 1) = .error e :=
  C8_amended_error_aborts_checkout (fun _ => 1)
    (fun p => if p = tb then some ⟨.TEN_PERCENT_DISCOUNT, 200⟩ else none)
    (ShoppingCart.empty.add_item_quantity tb 1) tb (0 + 1)
    ⟨.TEN_PERCENT_DISCOUNT, 200⟩
    (by simp [ShoppingCart.add_item_quantity, ShoppingCart.empty, QuantMap.set,
      QuantMap.get])
    (by simp)
    ⟨"Discount percentage must be between 0 and 100.",
      by norm_num [computeDiscount, DiscountCalculator.init, Except.bind,
        DiscountCalculator.calculate_discount,
        DiscountCalculator.ten_percent_discount, Except.map, pyInt]⟩

theorem handle_offers_ok_entries (offers : Product → Option Offer)
    (catalog : Product → ℚ) :
    ∀ (pqs : QuantMap) (l : List Discount),
    handle_offers pqs offers catalog = .ok l →
    ∀ (p : Product) (q : ℚ) (o : Offer), (p, q) ∈ pqs → offers p = some o →
    ∃ od, computeDiscount p q (catalog p) o = .ok od ∧
      ∀ d, od = some d → d ∈ l := by
  intro pqs
  induction pqs with
  | nil =>
    intro l _ p q o hmem _
    simp at hmem
  | cons hd rest ih =>
    intro l hl p q o hmem ho
    obtain ⟨p₁, q₁⟩ := hd
    rcases List.mem_cons.mp hmem with heq | hmem'
    · cases heq
      cases hcd : computeDiscount p q (catalog p) o with
      | error e =>
        simp only [handle_offers, ho, hcd, reduceCtorEq] at hl
      | ok od =>
        refine ⟨od, rfl, ?_⟩
        intro d hd'
        subst hd'
        cases hro : handle_offers rest offers catalog with
        | error e =>
          simp only [handle_offers, ho, hcd, hro, reduceCtorEq] at hl
        | ok ds =>
          simp only [handle_offers, ho, hcd, hro, Except.ok.injEq] at hl
          subst hl
          exact List.mem_cons_self d ds
    · cases hoff : offers p₁ with
      | none =>
        simp only [handle_offers, hoff] at hl
        exact ih l hl p q o hmem' ho
      | some o₁ =>
        cases hcd : computeDiscount p₁ q₁ (catalog p₁) o₁ with
        | error e =>
          simp only [handle_offers, hoff, hcd, reduceCtorEq] at hl
        | ok od₁ =>
          cases hro : handle_offers rest offers catalog with
          | error e =>
            simp only [handle_offers, hoff, hcd, hro, reduceCtorEq] at hl
          | ok ds =>
            obtain ⟨od, hod, hmem_ds⟩ := ih ds hro p q o hmem' ho
            refine ⟨od, hod, fun d hd' => ?_⟩
            cases od₁ with
            | some d₁ =>
              simp only [handle_offers, hoff, hcd, hro, Except.ok.injEq] at hl
              subst hl
              exact List.mem_cons_of_mem d₁ (hmem_ds d hd')
            | none =>
              simp only [handle_offers, hoff, hcd, hro, Except.ok.injEq] at hl
              subst hl
              exact hmem_ds d hd'

/-- C7: a successful checkout of a reachable cart yields exactly one receipt
line per cart addition, in insertion order, each priced
`quantity * catalog unit price`; and for every offered product occurring in
the cart, the discount engine is run on the MERGED total quantity of that
product (the sum over all its history entries), its resulting discount (if
any) landing in the receipt. -/
theorem C7_checkout_lines (catalog : Product → ℚ)
    (offers : Product → Option Offer) (cart : ShoppingCart) (r : Receipt)
    (hreach : Reachable cart)
    (h : checks_out_articles_from catalog offers cart = .ok r) :
    (r.items.length = cart.items.length ∧
      ∀ (i : ℕ) (hi : i < cart.items.length) (hi' : i < r.items.length),
        r.items.get ⟨i, hi'⟩ =
          ⟨(cart.items.get ⟨i, hi⟩).product, (cart.items.get ⟨i, hi⟩).quantity,
            catalog (cart.items.get ⟨i, hi⟩).product,
            (cart.items.get ⟨i, hi⟩).quantity *
              catalog (cart.items.get ⟨i, hi⟩).product⟩) ∧
    (∀ (p : Product) (o : Offer), offers p = some o →
      (∃ pq ∈ cart.items, pq.product = p) →
      ∃ od, computeDiscount p (histSum cart.items p) (catalog p) o = .ok od ∧
        ∀ d, od = some d → d ∈ r.discounts) := by
  rw [checks_out_articles_from] at h
  cases hro : handle_offers cart.product_quantities offers catalog with
  | error e =>
    rw [hro] at h
    exact absurd h (by simp)
  | ok ds =>
    rw [hro] at h
    rw [Except.ok.injEq] at h
    subst h
    constructor
    · constructor
      · simp
      · intro i hi hi'
        simp only [List.get_eq_getElem, List.getElem_map, process_item]
    · intro p o ho hex
      have hinv := reachable_cartInv hreach p
      have hsome : (cart.product_quantities.get p).isSome := hinv.1.mpr hex
      obtain ⟨q, hq⟩ := Option.isSome_iff_exists.mp hsome
      have hqval : q = histSum cart.items p := hinv.2 q hq
      have hmem : (p, q) ∈ cart.product_quantities :=
        QuantMap.mem_of_get_eq_some _ _ _ hq
      rw [hqval] at hmem
      exact handle_offers_ok_entries offers catalog cart.product_quantities
        ds hro p (histSum cart.items p) o hmem ho

/-- Closed instance of C7: checking out a cart with two separate toothbrush
additions (catalog price 1, TWO_FOR_AMOUNT at 1.5) yields two receipt lines;
the merged quantity 2 drives the offer, whose −0.5 discount is on the
receipt. -/
theorem C7_witness :
    (⟨[⟨tb, 1, 1, 1⟩, ⟨tb, 1, 1, 1⟩],
      [⟨tb, Description.groupFor 2 (3 / 2), -(1 / 2)⟩]⟩ : Receipt).items.length =
      ((ShoppingCart.empty.add_item tb).add_item tb).items.length :=
  (C7_checkout_lines (fun _ => 1)
    (fun p => if p = tb then some ⟨.TWO_FOR_AMOUNT, 3 / 2⟩ else none)
    ((ShoppingCart.empty.add_item tb).add_item tb)
    ⟨[⟨tb, 1, 1, 1⟩, ⟨tb, 1, 1, 1⟩],
      [⟨tb, Description.groupFor 2 (3 / 2), -(1 / 2)⟩]⟩
    (Reachable.add_item _ tb (Reachable.add_item _ tb Reachable.empty))
    (by norm_num [checks_out_articles_from, handle_offers, computeDiscount,
      DiscountCalculator.init, DiscountCalculator.calculate_discount,
      DiscountCalculator.two_for_amount_discount, amount_discount, Except.bind,
      ShoppingCart.add_item, ShoppingCart.add_item_quantity, ShoppingCart.empty,
      QuantMap.set, QuantMap.get, pyInt, process_item, tb,
      show Int.fdiv 2 2 = 1 from by decide,
      show Int.fmod 2 2 = 0 from by decide])).1.1

end Supermarket
